import Mathlib

/-!
Verification of `livesport-display` (a Raspberry Pi Pico W firmware driving
two TM1637 seven-segment displays from a fetched JSON game feed).

The embedding models:
* `src/tm1637.rs` — the TM1637 driver, at the level of bus transactions
  (start/stop transitions and bytes), which is the granularity the spec
  talks about;
* `src/main.rs` — the score/time render tasks (digit decomposition and
  the action sequences they emit) and the fetch loop (sleep policy state
  machine and per-iteration outcome handling).

Machine integers (`u8`, `u64`) are modelled as `Nat` with explicit `% 256`
where the `u8` width matters; Rust's panicking table indexing is modelled
with `Option` (a `none` result marks the out-of-bounds panic branch).
-/

namespace Tm1637

/-- A bus-level event on the TM1637 two-wire interface: a start condition,
a stop condition, or one transmitted byte. -/
inductive BusEvent where
  | start : BusEvent
  | stop : BusEvent
  | byte (b : Nat) : BusEvent
deriving DecidableEq, Repr

/-- `DIGITS` glyph table from `tm1637.rs` (16 entries, hex digits 0–F,
segment order XGFEDCBA). -/
def DIGITS : List Nat :=
  [0b00111111, -- 0
   0b00000110, -- 1
   0b01011011, -- 2
   0b01001111, -- 3
   0b01100110, -- 4
   0b01101101, -- 5
   0b01111101, -- 6
   0b00000111, -- 7
   0b01111111, -- 8
   0b01101111, -- 9
   0b01110111, -- A
   0b01111100, -- b
   0b00111001, -- C
   0b01011110, -- d
   0b01111001, -- E
   0b01110001] -- F

/-- `get_digit_code(digit: Option<u64>) -> u8`: `None` maps to a blank
glyph `0x0`; `Some(d)` indexes `DIGITS[d]`.  The Rust indexing panics when
`d` is out of bounds; that branch is the `none` result here. -/
def get_digit_code (digit : Option Nat) : Option Nat :=
  match digit with
  | none => some 0x0
  | some d => DIGITS[d]?

/-- `TM1637::start` emits one start condition on the bus. -/
def start_trace : List BusEvent := [BusEvent.start]

/-- `TM1637::stop` emits one stop condition on the bus. -/
def stop_trace : List BusEvent := [BusEvent.stop]

/-- `TM1637::write_byte` clocks out one byte (`u8`, hence `% 256`). -/
def write_byte (data : Nat) : List BusEvent := [BusEvent.byte (data % 256)]

/-- `TM1637::write_cmd`: start, the command byte, stop. -/
def write_cmd (cmd : Nat) : List BusEvent :=
  start_trace ++ write_byte cmd ++ stop_trace

/-- `TM1637::write_data`: start, address byte, data byte, stop. -/
def write_data (addr data : Nat) : List BusEvent :=
  start_trace ++ write_byte addr ++ write_byte data ++ stop_trace

/-- `TM1637::brightness(level, on)`: `(level & 0x07) | (on ? 0x08 : 0x00)`. -/
def brightness (level : Nat) (isOn : Bool) : Nat :=
  (level &&& 0x07) ||| (if isOn then 0x08 else 0x00)

/-- `TM1637::set_brightness`: a start, then `write_cmd(0x80 + (brightness & 0x0f))`
(which itself emits its own start/stop), then a stop. -/
def set_brightness (level : Nat) (isOn : Bool) : List BusEvent :=
  start_trace ++ write_cmd (0x80 + (brightness level isOn &&& 0x0f)) ++ stop_trace

/-- The loop body of `TM1637::display`: for each data item, in order, call
`write_data(address, item)` with `address` starting at the given base and
incremented by one per item; the item at index 1 gets `0b10000000` OR'd in
when `show_colon` is set. -/
def display_loop (addr index : Nat) (show_colon : Bool) : List Nat → List BusEvent
  | [] => []
  | d :: rest =>
    let d := if index == 1 && show_colon then d ||| 0b10000000 else d
    write_data addr d ++ display_loop (addr + 1) (index + 1) show_colon rest

/-- `TM1637::display(data, show_colon, brightness)`:
`write_cmd(0x40)`, then a bare `start()`, then the per-item `write_data`
loop from base address `0xc0`, then `set_brightness(brightness, true)`. -/
def display (data : List Nat) (show_colon : Bool) (level : Nat) : List BusEvent :=
  write_cmd 0x40 ++ start_trace ++ display_loop 0xc0 0 show_colon data
    ++ set_brightness level true

/-- The data-frame body the claim describes: the four addressed writes all
inside a single frame (address byte then data byte per item, no per-item
start/stop). -/
def claimed_loop (addr index : Nat) (show_colon : Bool) : List Nat → List BusEvent
  | [] => []
  | d :: rest =>
    let d := if index == 1 && show_colon then d ||| 0b10000000 else d
    write_byte addr ++ write_byte d ++ claimed_loop (addr + 1) (index + 1) show_colon rest

/-- The bus trace claimed by the spec sentence for `display`: one mode-command
frame, then ONE start/stop frame holding the four addressed writes, then one
brightness-command frame, and no other start/stop transitions. -/
def display_claimed (data : List Nat) (show_colon : Bool) (level : Nat) : List BusEvent :=
  write_cmd 0x40
    ++ (start_trace ++ claimed_loop 0xc0 0 show_colon data ++ stop_trace)
    ++ write_cmd (0x80 + (brightness level true &&& 0x0f))

end Tm1637

namespace Main

open Tm1637

/-- `DEFAULT_BRIGHTNESS_LEVEL` from `main.rs`. -/
def DEFAULT_BRIGHTNESS_LEVEL : Nat := 3

/-- `enum GameTime` from `main.rs`. -/
inductive GameTime where
  | WillBePlayed (when : Option (Nat × Nat)) : GameTime
  | Played : GameTime
  | BreakAfter (minute : Nat) : GameTime
  | Playing (minute : Nat) : GameTime
deriving DecidableEq, Repr

/-- `struct GameResult` from `main.rs` (team-name strings carried for
fidelity; they are dead code beyond deserialization). -/
structure GameResult where
  my_team : String
  my_team_score : Nat
  opponent_team : String
  opponent_team_score : Nat
  game_time : GameTime
deriving DecidableEq, Repr

/-- An observable action of a render task: a call to `display`, a call to
`turn_off`, or a timer sleep of the given number of milliseconds. -/
inductive Action where
  | displayCall (frame : List Nat) (colon : Bool) (level : Nat) : Action
  | turnOffCall : Action
  | sleepMs (ms : Nat) : Action
deriving DecidableEq, Repr

/-- The digit decomposition and trimming of `update_score` (main.rs lines
81–96): split each score into tens/ones, blank a zero home-tens digit, and
when the away-tens digit is zero move the away-ones digit into its slot and
blank the fourth slot. -/
def formatScore (my_team_score opponent_team_score : Nat) : List (Option Nat) :=
  let d0 : Option Nat := some ((my_team_score / 10) % 10)
  let d1 : Option Nat := some (my_team_score % 10)
  let d2 : Option Nat := some ((opponent_team_score / 10) % 10)
  let d3 : Option Nat := some (opponent_team_score % 10)
  -- trim leading zero
  let d0 := if d0 == some 0 then none else d0
  -- trim trailing zero
  let p := if d2 == some 0 then (d3, (none : Option Nat)) else (d2, d3)
  [d0, d1, p.1, p.2]

/-- One serviced mailbox value of the `update_score` task: the actions it
performs for a received `score` before it waits on the signal again.
A `none` overall result marks the (unreachable) panic of an out-of-bounds
`DIGITS` lookup inside `get_digit_code`. -/
def update_score_step (score : Option (Nat × Nat)) : Option (List Action) :=
  match score with
  | some (my_team_score, opponent_team_score) =>
    ((formatScore my_team_score opponent_team_score).mapM get_digit_code).map
      (fun digit_codes =>
        [Action.displayCall digit_codes true DEFAULT_BRIGHTNESS_LEVEL])
  | none =>
    some [Action.displayCall [0, 0, 0, 0] true DEFAULT_BRIGHTNESS_LEVEL,
          Action.sleepMs 1000,
          Action.displayCall [0, 0, 0, 0] false DEFAULT_BRIGHTNESS_LEVEL]

/-- `tuple_to_digits` from `main.rs`: four direct `DIGITS` lookups
(tens/ones of each component); a `none` entry marks the panic branch of an
out-of-bounds lookup. -/
def tuple_to_digits (tuple : Nat × Nat) : List (Option Nat) :=
  [DIGITS[(tuple.1 / 10) % 10]?,
   DIGITS[tuple.1 % 10]?,
   DIGITS[(tuple.2 / 10) % 10]?,
   DIGITS[tuple.2 % 10]?]

/-- `enum SleepState` from `main.rs`. -/
inductive SleepState where
  | FirstIteration : SleepState
  | AfterSuccess : SleepState
  | AfterFailure : SleepState
deriving DecidableEq, Repr

/-- The `sleep_in_secs` match at the start of each fetch-loop iteration. -/
def sleep_in_secs (s : SleepState) : Nat :=
  match s with
  | SleepState.FirstIteration => 0
  | SleepState.AfterSuccess => 5
  | SleepState.AfterFailure => 30

/-- The outcome of one pass through the network stages of a fetch-loop
iteration: failure at the connect (`http_client.request`), send
(`request.send`), body-read (`read_to_end`), decode (`from_utf8`) or parse
(`serde_json_core::de::from_slice`) stage, or a parsed `GameResult`. -/
inductive FetchOutcome where
  | connectErr : FetchOutcome
  | sendErr : FetchOutcome
  | readErr : FetchOutcome
  | utf8Err : FetchOutcome
  | parseErr : FetchOutcome
  | parsed (game_result : GameResult) : FetchOutcome
deriving DecidableEq, Repr

/-- The effect of one fetch-loop iteration after its initial sleep: either
the program panics (`.unwrap()` on a failed body read), or the iteration
finishes, having published `published` (the score mailbox value paired with
the game-time mailbox value, or `none` when nothing was published) and
leaving the sleep state for the next iteration. -/
inductive IterEffect where
  | panicked : IterEffect
  | finished (published : Option (Option (Nat × Nat) × GameTime)) (next : SleepState) : IterEffect
deriving DecidableEq, Repr

/-- The score published on a successful parse (`main.rs` lines 350–354):
`None` when `game_time` is `WillBePlayed(_)`, otherwise
`Some((my_team_score, opponent_team_score))`. -/
def score_on_success (game_result : GameResult) : Option (Nat × Nat) :=
  match game_result.game_time with
  | GameTime.WillBePlayed _ => none
  | _ => some (game_result.my_team_score, game_result.opponent_team_score)

/-- Whether a `GameTime` is the `WillBePlayed` variant. -/
def GameTime.isWillBePlayed : GameTime → Bool
  | GameTime.WillBePlayed _ => true
  | _ => false

/-- One fetch-loop iteration of `main` (after its initial sleep), as a
function of the outcome of the network stages.  Each handled failure logs,
sets `sleep_state = AfterFailure` and `continue`s without publishing; a
body-read failure hits `response.body().read_to_end().await.unwrap()` and
panics; a parsed result publishes to both mailboxes and the iteration ends
with `sleep_state = AfterSuccess`. -/
def fetch_iteration (outcome : FetchOutcome) : IterEffect :=
  match outcome with
  | FetchOutcome.connectErr => IterEffect.finished none SleepState.AfterFailure
  | FetchOutcome.sendErr => IterEffect.finished none SleepState.AfterFailure
  | FetchOutcome.readErr => IterEffect.panicked
  | FetchOutcome.utf8Err => IterEffect.finished none SleepState.AfterFailure
  | FetchOutcome.parseErr => IterEffect.finished none SleepState.AfterFailure
  | FetchOutcome.parsed game_result =>
      IterEffect.finished (some (score_on_success game_result, game_result.game_time))
        SleepState.AfterSuccess

/-- The sequence of sleep durations (in seconds) taken at the start of the
successive fetch-loop iterations, for a given starting sleep state and
sequence of per-iteration outcomes.  An iteration sleeps first; if its
outcome panics, the trace ends with that iteration's sleep. -/
def sleep_trace (s : SleepState) : List FetchOutcome → List Nat
  | [] => []
  | outcome :: rest =>
    match fetch_iteration outcome with
    | IterEffect.panicked => [sleep_in_secs s]
    | IterEffect.finished _ next => sleep_in_secs s :: sleep_trace next rest

/-- `COLON_BLINK_INTERVAL` from `update_time`, in milliseconds. -/
def COLON_BLINK_INTERVAL : Nat := 500

/-- The body of one pass of the `Playing` inner blink loop of `update_time`:
display with colon, sleep a half-cycle, display without colon, sleep a
half-cycle (then the loop checks `TIME_SIGNAL.signaled()`). -/
def playing_cycle (digit_codes : List Nat) : List Action :=
  [Action.displayCall digit_codes true DEFAULT_BRIGHTNESS_LEVEL,
   Action.sleepMs COLON_BLINK_INTERVAL,
   Action.displayCall digit_codes false DEFAULT_BRIGHTNESS_LEVEL,
   Action.sleepMs COLON_BLINK_INTERVAL]

/-- Exit time of the `Playing` inner blink loop when a new value is
published to the time mailbox at time `tpub` (milliseconds, measured from
loop entry).  Each loop pass takes two half-cycle sleeps (1000 ms total) and
only then performs the non-blocking `TIME_SIGNAL.signaled()` check, which
sees the publish iff it already happened (`tpub ≤` check time).  `fuel`
bounds the recursion; `none` means the loop had not yet exited. -/
def playing_exit_time (tpub now fuel : Nat) : Option Nat :=
  match fuel with
  | 0 => none
  | fuel + 1 =>
    if tpub ≤ now + 2 * COLON_BLINK_INTERVAL then some (now + 2 * COLON_BLINK_INTERVAL)
    else playing_exit_time tpub (now + 2 * COLON_BLINK_INTERVAL) fuel

end Main

section Helpers

/-- Any `DIGITS` lookup at an index below the table length 16 succeeds. -/
theorem DIGITS_getElem?_isSome_of_lt {k : Nat} (h : k < 16) :
    (Tm1637.DIGITS[k]?).isSome = true := by
  have hlen : k < Tm1637.DIGITS.length := by simp [Tm1637.DIGITS]; omega
  simp [List.getElem?_eq_getElem hlen]

/-- `get_digit_code` succeeds on any digit below the table length 16. -/
theorem get_digit_code_isSome_of_lt {k : Nat} (h : k < 16) :
    (Tm1637.get_digit_code (some k)).isSome = true := by
  simpa [Tm1637.get_digit_code] using DIGITS_getElem?_isSome_of_lt h

end Helpers

/-- C8: `get_digit_code` maps each digit 0–9 to the documented glyph byte of
the `DIGITS` table (0 to `0b00111111`, 1 to `0b00000110`, …) and maps `None`
to the blank glyph `0x00`. -/
theorem C8_encode_table :
    Tm1637.get_digit_code none = some 0x00 ∧
    Tm1637.get_digit_code (some 0) = some 0b00111111 ∧
    Tm1637.get_digit_code (some 1) = some 0b00000110 ∧
    Tm1637.get_digit_code (some 2) = some 0b01011011 ∧
    Tm1637.get_digit_code (some 3) = some 0b01001111 ∧
    Tm1637.get_digit_code (some 4) = some 0b01100110 ∧
    Tm1637.get_digit_code (some 5) = some 0b01101101 ∧
    Tm1637.get_digit_code (some 6) = some 0b01111101 ∧
    Tm1637.get_digit_code (some 7) = some 0b00000111 ∧
    Tm1637.get_digit_code (some 8) = some 0b01111111 ∧
    Tm1637.get_digit_code (some 9) = some 0b01101111 := by
  decide

/-- C7: on receiving a `None` score, the `update_score` task performs exactly
one on/off pulse — `display` with the all-blank frame and colon on, a fixed
1 s sleep, `display` with the all-blank frame and colon off — and nothing
else before it returns to waiting on the mailbox. -/
theorem C7_none_is_single_pulse :
    Main.update_score_step none =
      some [Main.Action.displayCall [0, 0, 0, 0] true Main.DEFAULT_BRIGHTNESS_LEVEL,
            Main.Action.sleepMs 1000,
            Main.Action.displayCall [0, 0, 0, 0] false Main.DEFAULT_BRIGHTNESS_LEVEL] := by
  rfl

/-- C2 (bug evidence): a body-read failure makes the fetch iteration panic
(`.unwrap()` on `read_to_end`), while every other failure stage finishes the
iteration without publishing and with the sleep state set to `AfterFailure`. -/
theorem C2_body_read_failure_panics :
    Main.fetch_iteration Main.FetchOutcome.readErr = Main.IterEffect.panicked ∧
    Main.fetch_iteration Main.FetchOutcome.connectErr =
      Main.IterEffect.finished none Main.SleepState.AfterFailure ∧
    Main.fetch_iteration Main.FetchOutcome.sendErr =
      Main.IterEffect.finished none Main.SleepState.AfterFailure ∧
    Main.fetch_iteration Main.FetchOutcome.utf8Err =
      Main.IterEffect.finished none Main.SleepState.AfterFailure ∧
    Main.fetch_iteration Main.FetchOutcome.parseErr =
      Main.IterEffect.finished none Main.SleepState.AfterFailure := by
  decide

/-- C5: the sleep policy maps `FirstIteration` to 0 s, `AfterSuccess` to 5 s
and `AfterFailure` to 30 s; the sleep is taken at the start of each
iteration (the head of the sleep trace is always the current state's
duration); and a failure/success sequence sleeps 0 s, then 30 s, then 5 s. -/
theorem C5_sleep_policy :
    Main.sleep_in_secs Main.SleepState.FirstIteration = 0 ∧
    Main.sleep_in_secs Main.SleepState.AfterSuccess = 5 ∧
    Main.sleep_in_secs Main.SleepState.AfterFailure = 30 ∧
    (∀ (s : Main.SleepState) (o : Main.FetchOutcome) (rest : List Main.FetchOutcome),
      (Main.sleep_trace s (o :: rest)).head? = some (Main.sleep_in_secs s)) ∧
    (∀ (g : Main.GameResult) (o : Main.FetchOutcome),
      Main.sleep_trace Main.SleepState.FirstIteration
        [Main.FetchOutcome.connectErr, Main.FetchOutcome.parsed g, o] = [0, 30, 5]) := by
  refine ⟨rfl, rfl, rfl, ?_, ?_⟩
  · intro s o rest
    simp only [Main.sleep_trace]
    cases Main.fetch_iteration o <;> simp
  · intro g o
    simp only [Main.sleep_trace, Main.fetch_iteration, Main.sleep_in_secs]
    cases o <;> simp [Main.sleep_trace]

/-- C6: on a successful parse, the published score sample is `none` exactly
when the game-time variant is `WillBePlayed` and otherwise
`some (my_team_score, opponent_team_score)`, and the iteration publishes
both the score and the game time and sets the sleep state to
`AfterSuccess`. -/
theorem C6_publish_on_success :
    ∀ g : Main.GameResult,
      Main.score_on_success g =
        (if g.game_time.isWillBePlayed = true then none
         else some (g.my_team_score, g.opponent_team_score)) ∧
      Main.fetch_iteration (Main.FetchOutcome.parsed g) =
        Main.IterEffect.finished (some (Main.score_on_success g, g.game_time))
          Main.SleepState.AfterSuccess := by
  intro g
  refine ⟨?_, rfl⟩
  cases h : g.game_time <;>
    simp [Main.score_on_success, Main.GameTime.isWillBePlayed, h]

/-- C9: the four-digit decomposition of a score pair depends only on the two
scores modulo 100 — both the `update_score` formatting and
`tuple_to_digits` agree on `(home, away)` and `(home % 100, away % 100)`. -/
theorem C9_decomposition_mod_100 :
    ∀ home away : Nat,
      Main.formatScore home away = Main.formatScore (home % 100) (away % 100) ∧
      Main.tuple_to_digits (home, away) =
        Main.tuple_to_digits (home % 100, away % 100) := by
  intro home away
  have h1 : ∀ n : Nat, (n % 100) % 10 = n % 10 := by intro n; omega
  have h2 : ∀ n : Nat, ((n % 100) / 10) % 10 = (n / 10) % 10 := by intro n; omega
  constructor
  · simp only [Main.formatScore, h1, h2]
  · simp only [Main.tuple_to_digits, h1, h2]

/-- C4: `formatScore` splits each score into tens and ones, blanks a zero
home-tens digit, and when the away-tens digit is zero shifts the away-ones
digit into that slot and blanks the fourth slot; in particular
`formatScore 7 0 = [none, some 7, some 0, none]`,
`formatScore 12 34 = [some 1, some 2, some 3, some 4]` and
`formatScore 0 0 = [none, some 0, some 0, none]`. -/
theorem C4_format_score :
    (∀ home away : Nat,
      Main.formatScore home away =
        [if (home / 10) % 10 = 0 then none else some ((home / 10) % 10),
         some (home % 10),
         if (away / 10) % 10 = 0 then some (away % 10) else some ((away / 10) % 10),
         if (away / 10) % 10 = 0 then none else some (away % 10)]) ∧
    Main.formatScore 7 0 = [none, some 7, some 0, none] ∧
    Main.formatScore 12 34 = [some 1, some 2, some 3, some 4] ∧
    Main.formatScore 0 0 = [none, some 0, some 0, none] := by
  refine ⟨?_, by decide, by decide, by decide⟩
  intro home away
  simp only [Main.formatScore, beq_iff_eq, Option.some.injEq]
  split_ifs <;> simp_all

/-- C10: `get_digit_code` succeeds exactly for digits up to 15 (the 16-entry
table bound), and every digit the render tasks pass — through `formatScore`
and through `tuple_to_digits`, all of the form `x % 10` or `(x / 10) % 10` —
makes the table lookup succeed, so the out-of-bounds panic branch is
unreachable. -/
theorem C10_lookups_in_bounds :
    (∀ d : Nat, (Tm1637.get_digit_code (some d)).isSome = true ↔ d ≤ 15) ∧
    (∀ my opp : Nat,
      ((Main.formatScore my opp).map Tm1637.get_digit_code).all Option.isSome = true) ∧
    (∀ t : Nat × Nat,
      (Main.tuple_to_digits t).all Option.isSome = true) := by
  refine ⟨?_, ?_, ?_⟩
  · intro d
    constructor
    · intro h
      by_contra hd
      have h16 : Tm1637.DIGITS.length ≤ d := by simp [Tm1637.DIGITS]; omega
      simp [Tm1637.get_digit_code, List.getElem?_eq_none h16] at h
    · intro h
      exact get_digit_code_isSome_of_lt (by omega)
  · intro my opp
    have hm : ∀ n : Nat, n % 10 < 16 := by intro n; omega
    simp only [Main.formatScore, beq_iff_eq, Option.some.injEq]
    split_ifs <;>
      simp_all [Tm1637.get_digit_code,
        DIGITS_getElem?_isSome_of_lt (hm my),
        DIGITS_getElem?_isSome_of_lt (hm opp),
        DIGITS_getElem?_isSome_of_lt (hm (my / 10)),
        DIGITS_getElem?_isSome_of_lt (hm (opp / 10))]
  · intro t
    have hm : ∀ n : Nat, n % 10 < Tm1637.DIGITS.length := by
      intro n; simp [Tm1637.DIGITS]; omega
    simp [Main.tuple_to_digits, List.getElem?_eq_getElem (hm t.1),
      List.getElem?_eq_getElem (hm t.2),
      List.getElem?_eq_getElem (hm (t.1 / 10)),
      List.getElem?_eq_getElem (hm (t.2 / 10))]

/-- C1 (counterexample): on the all-blank frame with no colon and
brightness 3, the trace actually emitted by `display` differs from the
claimed trace — the code emits 8 start conditions (one for the mode command,
a stray `start()` after it, one per `write_data` frame, and a doubled pair
around the brightness command), while the claimed "no other start/stop
transitions" trace has exactly 3. -/
theorem C1_display_trace_counterexample :
    Tm1637.display [0, 0, 0, 0] false 3 ≠ Tm1637.display_claimed [0, 0, 0, 0] false 3 ∧
    (Tm1637.display [0, 0, 0, 0] false 3).count Tm1637.BusEvent.start = 8 ∧
    (Tm1637.display_claimed [0, 0, 0, 0] false 3).count Tm1637.BusEvent.start = 3 := by
  decide

/-- C1 (amended): for every 4-byte frame, colon flag and brightness level,
`display` emits the mode command `0x40` in its own start/stop frame, then a
stray start condition, then four separate start/stop frames each holding one
addressed write with addresses strictly increasing from `0xc0` (the second
byte OR'd with `0x80` exactly when the colon flag is set), then the
brightness command `0x80 + ((level & 7) | 0x08)` wrapped in a doubled
start/stop pair — and nothing else. -/
theorem C1_display_trace :
    ∀ (d0 d1 d2 d3 : Nat) (colon : Bool) (level : Nat),
      Tm1637.display [d0, d1, d2, d3] colon level =
        [Tm1637.BusEvent.start, Tm1637.BusEvent.byte 0x40, Tm1637.BusEvent.stop]
        ++ [Tm1637.BusEvent.start]
        ++ [Tm1637.BusEvent.start, Tm1637.BusEvent.byte 0xc0,
            Tm1637.BusEvent.byte (d0 % 256), Tm1637.BusEvent.stop]
        ++ [Tm1637.BusEvent.start, Tm1637.BusEvent.byte 0xc1,
            Tm1637.BusEvent.byte ((if colon then d1 ||| 0x80 else d1) % 256),
            Tm1637.BusEvent.stop]
        ++ [Tm1637.BusEvent.start, Tm1637.BusEvent.byte 0xc2,
            Tm1637.BusEvent.byte (d2 % 256), Tm1637.BusEvent.stop]
        ++ [Tm1637.BusEvent.start, Tm1637.BusEvent.byte 0xc3,
            Tm1637.BusEvent.byte (d3 % 256), Tm1637.BusEvent.stop]
        ++ [Tm1637.BusEvent.start, Tm1637.BusEvent.start,
            Tm1637.BusEvent.byte ((0x80 + (((level &&& 0x07) ||| 0x08) &&& 0x0f)) % 256),
            Tm1637.BusEvent.stop, Tm1637.BusEvent.stop] := by
  intro d0 d1 d2 d3 colon level
  cases colon <;>
    simp [Tm1637.display, Tm1637.display_loop, Tm1637.write_cmd, Tm1637.write_data,
      Tm1637.write_byte, Tm1637.set_brightness, Tm1637.brightness,
      Tm1637.start_trace, Tm1637.stop_trace]

/-- The `Playing` blink loop exits at the first end-of-cycle check at or
after the publish time, which is at most one full blink cycle (two
half-cycle sleeps, 1000 ms) past the later of the loop entry and the
publish. -/
theorem playing_exit_time_bound (fuel : Nat) :
    ∀ now tpub : Nat, tpub ≤ now + 1000 * (fuel + 1) →
      ∃ texit : Nat,
        Main.playing_exit_time tpub now (fuel + 1) = some texit ∧
        tpub ≤ texit ∧ texit ≤ max now tpub + 1000 := by
  induction fuel with
  | zero =>
    intro now tpub h
    refine ⟨now + 1000, ?_, by omega, by omega⟩
    simp only [Main.playing_exit_time, Main.COLON_BLINK_INTERVAL]
    rw [if_pos (by omega)]
  | succ fuel ih =>
    intro now tpub h
    by_cases hc : tpub ≤ now + 1000
    · refine ⟨now + 1000, ?_, by omega, by omega⟩
      simp only [Main.playing_exit_time, Main.COLON_BLINK_INTERVAL]
      rw [if_pos (by omega)]
    · obtain ⟨texit, hrun, hle, hub⟩ := ih (now + 1000) tpub (by omega)
      refine ⟨texit, ?_, hle, by omega⟩
      simp only [Main.playing_exit_time, Main.COLON_BLINK_INTERVAL] at hrun ⊢
      rw [if_neg (by omega)]
      exact hrun

/-- C3 (counterexample): a value published 100 ms into a `Playing` blink
cycle is only noticed by the end-of-cycle `signaled()` check at 1000 ms, a
staleness of 900 ms — more than one blink half-cycle (500 ms). -/
theorem C3_playing_staleness_counterexample :
    Main.playing_exit_time 100 0 1 = some 1000 ∧
    ¬(1000 - 100 ≤ Main.COLON_BLINK_INTERVAL) := by
  decide

/-- C3 (amended): the `Playing` inner loop checks the mailbox non-blockingly
once per full blink cycle (after both half-cycle sleeps), so a value
published at any time `tpub` after loop entry makes the loop exit at the
next end-of-cycle check — within one full blink cycle (1000 ms, i.e. two
half-periods) of the publish, not within one half-cycle. -/
theorem C3_playing_staleness_bound :
    ∀ tpub : Nat, ∃ texit : Nat,
      Main.playing_exit_time tpub 0 (tpub / 1000 + 1) = some texit ∧
      tpub ≤ texit ∧ texit ≤ tpub + 2 * Main.COLON_BLINK_INTERVAL := by
  intro tpub
  obtain ⟨texit, hrun, hle, hub⟩ :=
    playing_exit_time_bound (tpub / 1000) 0 tpub (by omega)
  refine ⟨texit, hrun, hle, ?_⟩
  have : max 0 tpub = tpub := Nat.max_eq_right (Nat.zero_le _)
  simp only [Main.COLON_BLINK_INTERVAL]
  omega
